import Mathlib

/-
Verification of the RayForce Entity transform-synchronization core
(src/RayForce/src/entities/entity.cpp, entity.h).

The embedding models IEEE floats as exact rationals extended with the
special values +inf, -inf and NaN (all rounding is dropped: arithmetic on
finite values is exact, which is the "exact-arithmetic embedding of the
pose store" reading of the spec's tolerance remarks).  The PhysX world is
a finite association list of rigid-dynamic bodies addressed by numeric
handles; the external collaborators (raymath's QuaternionToEuler and the
RAD2DEG constant, the ModelManager's model/material lookups) are
abstracted into an environment record, since their code is not part of
this repository.
-/

namespace RayForce

/-- A float value: an exact rational, or one of the IEEE special values. -/
inductive F where
  | num (q : ℚ)
  | pinf
  | ninf
  | nan
deriving DecidableEq

/-- IEEE negation on the float model. -/
def fneg : F → F
  | F.num a => F.num (-a)
  | F.pinf => F.ninf
  | F.ninf => F.pinf
  | F.nan => F.nan

/-- IEEE addition on the float model (exact on finite values). -/
def fadd : F → F → F
  | F.num a, F.num b => F.num (a + b)
  | F.num _, F.pinf => F.pinf
  | F.num _, F.ninf => F.ninf
  | F.pinf, F.num _ => F.pinf
  | F.ninf, F.num _ => F.ninf
  | F.pinf, F.pinf => F.pinf
  | F.ninf, F.ninf => F.ninf
  | F.pinf, F.ninf => F.nan
  | F.ninf, F.pinf => F.nan
  | _, F.nan => F.nan
  | F.nan, _ => F.nan

/-- IEEE subtraction on the float model. -/
def fsub (a b : F) : F := fadd a (fneg b)

/-- IEEE multiplication on the float model (exact on finite values). -/
def fmul : F → F → F
  | F.num a, F.num b => F.num (a * b)
  | F.num a, F.pinf => if a > 0 then F.pinf else if a < 0 then F.ninf else F.nan
  | F.num a, F.ninf => if a > 0 then F.ninf else if a < 0 then F.pinf else F.nan
  | F.pinf, F.num b => if b > 0 then F.pinf else if b < 0 then F.ninf else F.nan
  | F.ninf, F.num b => if b > 0 then F.ninf else if b < 0 then F.pinf else F.nan
  | F.pinf, F.pinf => F.pinf
  | F.ninf, F.ninf => F.pinf
  | F.pinf, F.ninf => F.ninf
  | F.ninf, F.pinf => F.ninf
  | _, F.nan => F.nan
  | F.nan, _ => F.nan

/-- IEEE `<=` comparison: any comparison involving NaN is false. -/
def fle : F → F → Bool
  | F.num a, F.num b => decide (a ≤ b)
  | F.num _, F.pinf => true
  | F.num _, F.ninf => false
  | F.pinf, F.num _ => false
  | F.ninf, F.num _ => true
  | F.pinf, F.pinf => true
  | F.ninf, F.ninf => true
  | F.pinf, F.ninf => false
  | F.ninf, F.pinf => true
  | _, F.nan => false
  | F.nan, _ => false

/-- IEEE `<` comparison: any comparison involving NaN is false. -/
def flt : F → F → Bool
  | F.num a, F.num b => decide (a < b)
  | F.num _, F.pinf => true
  | F.num _, F.ninf => false
  | F.pinf, F.num _ => false
  | F.ninf, F.num _ => true
  | F.pinf, F.pinf => false
  | F.ninf, F.ninf => false
  | F.pinf, F.ninf => false
  | F.ninf, F.pinf => true
  | _, F.nan => false
  | F.nan, _ => false

/-- `std::isfinite`: true exactly on the rational (finite) values. -/
def isfiniteF : F → Bool
  | F.num _ => true
  | _ => false

/-- Raylib `Vector3`. -/
structure Vector3 where
  x : F
  y : F
  z : F
deriving DecidableEq

/-- Raylib `Quaternion` (x, y, z, w). -/
structure Quaternion where
  x : F
  y : F
  z : F
  w : F
deriving DecidableEq

/-- Raylib `Matrix` (4x4, column-major fields m0..m15 as in raylib). -/
structure Matrix4 where
  m0 : F
  m1 : F
  m2 : F
  m3 : F
  m4 : F
  m5 : F
  m6 : F
  m7 : F
  m8 : F
  m9 : F
  m10 : F
  m11 : F
  m12 : F
  m13 : F
  m14 : F
  m15 : F
deriving DecidableEq

/-- The zero vector, `{ 0, 0, 0 }`. -/
def v3zero : Vector3 := ⟨F.num 0, F.num 0, F.num 0⟩

/-- The identity quaternion `{ 0, 0, 0, 1 }` (`PxIdentity`). -/
def qIdentity : Quaternion := ⟨F.num 0, F.num 0, F.num 0, F.num 1⟩

/-- A 3x3 matrix given by its three columns. -/
structure Mat3 where
  col0 : Vector3
  col1 : Vector3
  col2 : Vector3
deriving DecidableEq

/-- Rotation matrix of a quaternion, as computed by the external physics
library's 3x3-matrix-from-quaternion constructor (the rotation block that
`PxMat44 physxMat(transform)` produces); modelled from that library's
documented formula. -/
def quatToMat3 (q : Quaternion) : Mat3 :=
  let x := q.x
  let y := q.y
  let z := q.z
  let w := q.w
  let x2 := fadd x x
  let y2 := fadd y y
  let z2 := fadd z z
  let xx := fmul x2 x
  let yy := fmul y2 y
  let zz := fmul z2 z
  let xy := fmul x2 y
  let xz := fmul x2 z
  let xw := fmul x2 w
  let yz := fmul y2 z
  let yw := fmul y2 w
  let zw := fmul z2 w
  { col0 := ⟨fsub (fsub (F.num 1) yy) zz, fadd xy zw, fsub xz yw⟩
    col1 := ⟨fsub xy zw, fsub (fsub (F.num 1) xx) zz, fadd yz xw⟩
    col2 := ⟨fadd xz yw, fsub yz xw, fsub (fsub (F.num 1) xx) yy⟩ }

/-- `PxTransform`: a pose, i.e. position plus orientation. -/
structure Pose where
  p : Vector3
  q : Quaternion
deriving DecidableEq

/-- Opaque handles for external resources. -/
abbrev ModelID := Nat

/-- Non-owning reference to a drawable model resource. -/
abbrev ModelRef := Nat

/-- Non-owning reference to a physical material. -/
abbrev MaterialRef := Nat

/-- Opaque collision geometry descriptor (`PxGeometry`). -/
abbrev Geometry := Nat

/-- A collision shape attached to a body (`PxShape`), with its tuning
offsets. -/
structure Shape where
  geometry : Geometry
  material : MaterialRef
  contactOffset : F
  restOffset : F
deriving DecidableEq

/-- A `PxRigidDynamic` actor: pose, velocities, mass, attached shapes,
sleep threshold and the userData back-reference. -/
structure Body where
  pose : Pose
  linearVelocity : Vector3
  angularVelocity : Vector3
  mass : F
  shapes : List Shape
  sleepThreshold : F
  userData : Option Nat
deriving DecidableEq

/-- Look a body up by handle in an association list. -/
def lookupBody : List (Nat × Body) → Nat → Option Body
  | [], _ => none
  | p :: rest, id => if p.1 = id then some p.2 else lookupBody rest id

/-- Apply `f` to every body registered under handle `id`. -/
def modifyList (id : Nat) (f : Body → Body) : List (Nat × Body) → List (Nat × Body)
  | [] => []
  | p :: rest => (if p.1 = id then (p.1, f p.2) else p) :: modifyList id f rest

/-- The physics world: the rigid-dynamic actors it owns, addressed by
handles, plus the next fresh handle. -/
structure World where
  bodies : List (Nat × Body)
  nextId : Nat
deriving DecidableEq

/-- Read a body from the world. -/
def World.lookup (w : World) (id : Nat) : Option Body :=
  lookupBody w.bodies id

/-- Mutate the body at handle `id` in place (no-op on a dangling handle). -/
def World.modifyBody (w : World) (id : Nat) (f : Body → Body) : World :=
  { w with bodies := modifyList id f w.bodies }

/-- `createRigidDynamic`: register a new actor under a fresh handle. -/
def World.create (w : World) (b : Body) : World × Nat :=
  ({ bodies := (w.nextId, b) :: w.bodies, nextId := w.nextId + 1 }, w.nextId)

/-- A fresh `PxRigidDynamic` at the given transform: at rest, no shapes,
default mass, no userData yet. -/
def newRigidDynamic (t : Pose) : Body :=
  { pose := t
    linearVelocity := v3zero
    angularVelocity := v3zero
    mass := F.num 1
    shapes := []
    sleepThreshold := F.num 0
    userData := none }

/-- The external collaborators of the Entity, abstracted: raymath's
`QuaternionToEuler` and the `RAD2DEG` constant (irrational, hence kept
opaque), and the ModelManager's model and material resolution. -/
structure Env where
  quaternionToEuler : Quaternion → Vector3
  rad2deg : F
  getModel : ModelID → ModelRef
  getModelMaterial : ModelID → MaterialRef

/-- The Entity state (entity.h): transform data, visual assets, mass and
the optional physical body handle. -/
structure Entity where
  worldMatrix : Matrix4
  rotationQuat : Quaternion
  position : Vector3
  rotation : Vector3
  scale : Vector3
  velocity : Vector3
  model : ModelRef
  modelID : ModelID
  mass : F
  hitbox : Option Nat
deriving DecidableEq

/-- `Entity::Entity(Vector3 pos, ModelID _modelID)`: field initializers
from entity.h plus the constructor body.  `worldMatrix` has no
initializer in the source (indeterminate), so it is a parameter. -/
def Entity.create (env : Env) (pos : Vector3) (mid : ModelID) (wmInit : Matrix4) : Entity :=
  { worldMatrix := wmInit
    rotationQuat := ⟨F.num 0, F.num 0, F.num 0, F.num 1⟩
    position := pos
    rotation := ⟨F.num 0, F.num 0, F.num 0⟩
    scale := ⟨F.num 1, F.num 1, F.num 1⟩
    velocity := ⟨F.num 0, F.num 0, F.num 0⟩
    model := env.getModel mid
    modelID := mid
    mass := F.num 10
    hitbox := none }

/-- The body of `Entity::PhysicsUpdate` once the body has been read:
overwrite position, orientation quaternion, Euler rotation (degrees),
world matrix and velocity from the body's pose and linear velocity. -/
def pullFromBody (env : Env) (ent : Entity) (b : Body) : Entity :=
  let transform := b.pose
  let newPos : Vector3 := ⟨transform.p.x, transform.p.y, transform.p.z⟩
  let newQuat : Quaternion := ⟨transform.q.x, transform.q.y, transform.q.z, transform.q.w⟩
  let eulerRadians := env.quaternionToEuler newQuat
  let newRot : Vector3 :=
    ⟨fmul eulerRadians.x env.rad2deg, fmul eulerRadians.y env.rad2deg,
      fmul eulerRadians.z env.rad2deg⟩
  let physxMat := quatToMat3 transform.q
  let wm : Matrix4 :=
    { m0 := physxMat.col0.x, m1 := physxMat.col0.y, m2 := physxMat.col0.z, m3 := F.num 0
      m4 := physxMat.col1.x, m5 := physxMat.col1.y, m6 := physxMat.col1.z, m7 := F.num 0
      m8 := physxMat.col2.x, m9 := physxMat.col2.y, m10 := physxMat.col2.z, m11 := F.num 0
      m12 := transform.p.x, m13 := transform.p.y, m14 := transform.p.z, m15 := F.num 1 }
  let v := b.linearVelocity
  { ent with
    position := newPos
    rotationQuat := newQuat
    rotation := newRot
    worldMatrix := wm
    velocity := ⟨v.x, v.y, v.z⟩ }

/-- `Entity::PhysicsUpdate`: pull pose and velocity from the physical
body, if there is one. -/
def PhysicsUpdate (env : Env) (ent : Entity) (w : World) : Entity :=
  match ent.hitbox with
  | none => ent
  | some id =>
    match w.lookup id with
    | none => ent
    | some b => pullFromBody env ent b

/-- `Entity::Sync`: push the entity's transform and velocity onto the
physical body, if there is one (`setGlobalPose`, then
`setLinearVelocity`). -/
def Sync (ent : Entity) (w : World) : World :=
  match ent.hitbox with
  | none => w
  | some id =>
    let q : Quaternion :=
      ⟨ent.rotationQuat.x, ent.rotationQuat.y, ent.rotationQuat.z, ent.rotationQuat.w⟩
    let w1 := w.modifyBody id (fun b =>
      { b with pose := { p := ⟨ent.position.x, ent.position.y, ent.position.z⟩, q := q } })
    w1.modifyBody id (fun b =>
      { b with linearVelocity := ⟨ent.velocity.x, ent.velocity.y, ent.velocity.z⟩ })

/-- The exclusive shape built in `Entity::SetHitbox` from the geometry and
the model's material, with the in-source contact and rest offsets. -/
def attachShape (env : Env) (ent : Entity) (g : Geometry) : Shape :=
  { geometry := g
    material := env.getModelMaterial ent.modelID
    contactOffset := F.num (1 / 50)
    restOffset := F.num 0 }

/-- Steps 3 and 4 of `Entity::SetHitbox` on the actor: attach the new
exclusive shape, set mass and inertia from the entity's (sanitized) mass,
zero both velocities, and set the sleep threshold. -/
def attachToBody (env : Env) (ent : Entity) (g : Geometry) (b : Body) : Body :=
  { b with
    shapes := b.shapes ++ [attachShape env ent g]
    mass := ent.mass
    linearVelocity := v3zero
    angularVelocity := v3zero
    sleepThreshold := F.num (1 / 5) }

/-- `Entity::SetHitbox(PxGeometry*)`.  `none` models a null geometry
pointer; the returned Bool records whether the null-argument warning was
logged.  `self` is the entity's own address, stored in the actor's
userData back-reference. -/
def SetHitbox (env : Env) (self : Nat) (ent : Entity) (w : World)
    (pgeometry : Option Geometry) : Entity × World × Bool :=
  match pgeometry with
  | none => (ent, w, true)
  | some geometry =>
    let pos1 := if isfiniteF ent.position.x then ent.position else v3zero
    let mass1 := if fle ent.mass (F.num 0) then F.num 1 else ent.mass
    let e1 : Entity := { ent with position := pos1, mass := mass1 }
    let initialTransform : Pose := { p := e1.position, q := qIdentity }
    match ent.hitbox with
    | none =>
      let body0 := newRigidDynamic initialTransform
      let body1 := { body0 with userData := some self }
      let wi := w.create body1
      let e2 : Entity := { e1 with hitbox := some wi.2 }
      (e2, (wi.1.modifyBody wi.2 (attachToBody env e2 geometry)), false)
    | some id =>
      (e1, (w.modifyBody id (attachToBody env e1 geometry)), false)

/-- The handle `SetHitbox` ends up using: the existing one, or the fresh
one the world hands out. -/
def bodyIdOf (ent : Entity) (w : World) : Nat :=
  match ent.hitbox with
  | none => w.nextId
  | some id => id

/-- A body is at rest: both velocities are exactly zero. -/
def bodyAtRest (b : Body) : Bool :=
  decide (b.linearVelocity = v3zero ∧ b.angularVelocity = v3zero)

/-- A concrete environment for evaluating the operations on test data. -/
def env0 : Env :=
  { quaternionToEuler := fun _ => v3zero
    rad2deg := F.num 57
    getModel := fun mid => mid
    getModelMaterial := fun mid => mid }

/-- The all-zero 4x4 matrix, used as a concrete indeterminate initial
world matrix. -/
def mat4zero : Matrix4 :=
  ⟨F.num 0, F.num 0, F.num 0, F.num 0, F.num 0, F.num 0, F.num 0, F.num 0,
    F.num 0, F.num 0, F.num 0, F.num 0, F.num 0, F.num 0, F.num 0, F.num 0⟩

/-- The empty physics world. -/
def w0 : World := { bodies := [], nextId := 0 }

/-- A freshly constructed test entity at the origin with no body. -/
def entBase : Entity := Entity.create env0 v3zero 0 mat4zero

/-- Test entity with no physical body, at (5,5,5). -/
def entNoBody : Entity :=
  { entBase with position := ⟨F.num 5, F.num 5, F.num 5⟩ }

/-- Test entity whose position has a NaN y component but a finite x. -/
def entBadY : Entity :=
  { entBase with position := ⟨F.num 0, F.nan, F.num 0⟩ }

/-- Test entity whose position has a NaN x component. -/
def entBadX : Entity :=
  { entBase with position := ⟨F.nan, F.num 7, F.num 7⟩ }

/-- Test entity whose mass is NaN. -/
def entNanMass : Entity := { entBase with mass := F.nan }

/-- Test entity whose mass is the (finite) non-positive value -2. -/
def entNegMass : Entity := { entBase with mass := F.num (-2) }

/-- A concrete body posed at (1,2,3) with identity orientation. -/
def body7 : Body :=
  { pose := { p := ⟨F.num 1, F.num 2, F.num 3⟩, q := qIdentity }
    linearVelocity := v3zero
    angularVelocity := v3zero
    mass := F.num 1
    shapes := []
    sleepThreshold := F.num 0
    userData := some 0 }

/-- A world holding `body7` under handle 0. -/
def w7 : World := { bodies := [(0, body7)], nextId := 1 }

/-- Test entity attached to the body at handle 0. -/
def ent7 : Entity := { entBase with hitbox := some 0 }

/-- Test entity with a body at handle 0 and a nontrivial transform and
velocity, for the push-then-pull round trip. -/
def ent5 : Entity :=
  { entBase with
    position := ⟨F.num 1, F.num 2, F.num 3⟩
    rotationQuat := ⟨F.num (1 / 2), F.num (1 / 2), F.num (1 / 2), F.num (1 / 2)⟩
    velocity := ⟨F.num 4, F.num 5, F.num 6⟩
    hitbox := some 0 }

theorem lookupBody_modifyList (l : List (Nat × Body)) (id : Nat) (f : Body → Body) :
    lookupBody (modifyList id f l) id = (lookupBody l id).map f := by
  induction l with
  | nil => rfl
  | cons p rest ih =>
    by_cases h : p.1 = id <;> simp [modifyList, lookupBody, h, ih]

theorem keys_modifyList (l : List (Nat × Body)) (id : Nat) (f : Body → Body) :
    (modifyList id f l).map Prod.fst = l.map Prod.fst := by
  induction l with
  | nil => rfl
  | cons p rest ih =>
    by_cases h : p.1 = id <;> simp [modifyList, h, ih]

theorem lookup_modifyBody (w : World) (id : Nat) (f : Body → Body) :
    (w.modifyBody id f).lookup id = (w.lookup id).map f :=
  lookupBody_modifyList w.bodies id f

/-- C1: for every Entity whose physical body is absent (hitbox is null),
PullSync (`PhysicsUpdate`) and PushSync (`Sync`) are no-ops: the Entity
and the physical world are unchanged by the calls. -/
theorem physicsUpdate_sync_noop_of_no_hitbox (env : Env) (ent : Entity) (w : World)
    (h : ent.hitbox = none) :
    PhysicsUpdate env ent w = ent ∧ Sync ent w = w := by
  constructor <;> simp [PhysicsUpdate, Sync, h]

/-- Witness for C1 at a concrete bodyless entity. -/
theorem physicsUpdate_sync_noop_witness :
    entNoBody.hitbox = none ∧
      (PhysicsUpdate env0 entNoBody w0 = entNoBody ∧ Sync entNoBody w0 = w0) :=
  ⟨rfl, physicsUpdate_sync_noop_of_no_hitbox env0 entNoBody w0 rfl⟩

/-- C3: `SetHitbox` with a null geometry descriptor logs the warning and
aborts, leaving the Entity and the physical world exactly as before. -/
theorem setHitbox_null_geometry_aborts (env : Env) (self : Nat) (ent : Entity) (w : World) :
    SetHitbox env self ent w none = (ent, w, true) := rfl

/-- C6: PullSync (`PhysicsUpdate`) is idempotent when the physical world
does not advance between the two calls. -/
theorem physicsUpdate_idempotent (env : Env) (ent : Entity) (w : World) :
    PhysicsUpdate env (PhysicsUpdate env ent w) w = PhysicsUpdate env ent w := by
  cases h : ent.hitbox with
  | none => simp [PhysicsUpdate, h]
  | some id =>
    cases hl : w.lookup id with
    | none => simp [PhysicsUpdate, h, hl]
    | some b =>
      have h1 : PhysicsUpdate env ent w = pullFromBody env ent b := by
        simp [PhysicsUpdate, h, hl]
      have h2 : (pullFromBody env ent b).hitbox = some id := h
      rw [h1]
      simp only [PhysicsUpdate, h2, hl]
      rfl

/-- C9: the constructor yields an Entity with the given position, zero
velocity, identity orientation, unit scale, the default positive mass,
the visual resource resolved from the model identifier, and no physical
body. -/
theorem entity_create_postcondition (env : Env) (pos : Vector3) (mid : ModelID)
    (wmInit : Matrix4) :
    (Entity.create env pos mid wmInit).position = pos ∧
      (Entity.create env pos mid wmInit).velocity = v3zero ∧
      (Entity.create env pos mid wmInit).rotationQuat = qIdentity ∧
      (Entity.create env pos mid wmInit).scale = ⟨F.num 1, F.num 1, F.num 1⟩ ∧
      (Entity.create env pos mid wmInit).mass = F.num 10 ∧
      flt (F.num 0) (Entity.create env pos mid wmInit).mass = true ∧
      (Entity.create env pos mid wmInit).model = env.getModel mid ∧
      (Entity.create env pos mid wmInit).hitbox = none :=
  ⟨rfl, rfl, rfl, rfl, rfl, rfl, rfl, rfl⟩

/-- C5: PushSync (`Sync`) followed immediately by PullSync
(`PhysicsUpdate`) with no simulation step in between reproduces exactly
the position, orientation quaternion and velocity that were pushed. -/
theorem sync_then_physicsUpdate_roundtrip (env : Env) (ent : Entity) (w : World)
    (id : Nat) (b : Body) (hb : ent.hitbox = some id) (hw : w.lookup id = some b) :
    (PhysicsUpdate env ent (Sync ent w)).position = ent.position ∧
      (PhysicsUpdate env ent (Sync ent w)).rotationQuat = ent.rotationQuat ∧
      (PhysicsUpdate env ent (Sync ent w)).velocity = ent.velocity := by
  have hs : (Sync ent w).lookup id =
      some { b with
        pose := { p := ⟨ent.position.x, ent.position.y, ent.position.z⟩
                  q := ⟨ent.rotationQuat.x, ent.rotationQuat.y, ent.rotationQuat.z,
                        ent.rotationQuat.w⟩ }
        linearVelocity := ⟨ent.velocity.x, ent.velocity.y, ent.velocity.z⟩ } := by
    simp [Sync, hb, lookup_modifyBody, hw]
  simp [PhysicsUpdate, hb, hs, pullFromBody]

/-- Witness for C5: the round trip at a concrete posed entity. -/
theorem sync_then_physicsUpdate_roundtrip_witness :
    ent5.hitbox = some 0 ∧ w7.lookup 0 = some body7 ∧
      ((PhysicsUpdate env0 ent5 (Sync ent5 w7)).position = ent5.position ∧
        (PhysicsUpdate env0 ent5 (Sync ent5 w7)).rotationQuat = ent5.rotationQuat ∧
        (PhysicsUpdate env0 ent5 (Sync ent5 w7)).velocity = ent5.velocity) :=
  ⟨rfl, rfl, sync_then_physicsUpdate_roundtrip env0 ent5 w7 0 body7 rfl rfl⟩

/-- C7: after PullSync the world matrix's translation column is the
pose's position with homogeneous element 1, its upper-left 3x3 block is
exactly the rotation matrix of the pose's orientation, and no scale is
composed in (the matrix is invariant under changes of the entity's
scale). -/
theorem physicsUpdate_worldMatrix_derivation (env : Env) (ent : Entity) (w : World)
    (id : Nat) (b : Body) (hb : ent.hitbox = some id) (hw : w.lookup id = some b) :
    (PhysicsUpdate env ent w).worldMatrix =
      { m0 := (quatToMat3 b.pose.q).col0.x, m1 := (quatToMat3 b.pose.q).col0.y
        m2 := (quatToMat3 b.pose.q).col0.z, m3 := F.num 0
        m4 := (quatToMat3 b.pose.q).col1.x, m5 := (quatToMat3 b.pose.q).col1.y
        m6 := (quatToMat3 b.pose.q).col1.z, m7 := F.num 0
        m8 := (quatToMat3 b.pose.q).col2.x, m9 := (quatToMat3 b.pose.q).col2.y
        m10 := (quatToMat3 b.pose.q).col2.z, m11 := F.num 0
        m12 := b.pose.p.x, m13 := b.pose.p.y, m14 := b.pose.p.z, m15 := F.num 1 } ∧
      ∀ s : Vector3,
        (PhysicsUpdate env { ent with scale := s } w).worldMatrix =
          (PhysicsUpdate env ent w).worldMatrix := by
  constructor
  · simp [PhysicsUpdate, hb, hw, pullFromBody]
  · intro s
    have hb2 : ({ ent with scale := s } : Entity).hitbox = some id := hb
    simp only [PhysicsUpdate, hb, hb2, hw]
    rfl

/-- Witness for C7: at position (1,2,3) with identity orientation the
translation column is (1,2,3), the homogeneous element is 1, and the
rotation block is the identity matrix. -/
theorem physicsUpdate_worldMatrix_witness :
    ent7.hitbox = some 0 ∧ w7.lookup 0 = some body7 ∧
      (PhysicsUpdate env0 ent7 w7).worldMatrix =
        { m0 := F.num 1, m1 := F.num 0, m2 := F.num 0, m3 := F.num 0
          m4 := F.num 0, m5 := F.num 1, m6 := F.num 0, m7 := F.num 0
          m8 := F.num 0, m9 := F.num 0, m10 := F.num 1, m11 := F.num 0
          m12 := F.num 1, m13 := F.num 2, m14 := F.num 3, m15 := F.num 1 } := by
  refine ⟨rfl, rfl, ?_⟩
  have h := physicsUpdate_worldMatrix_derivation env0 ent7 w7 0 body7 rfl rfl
  rw [h.1]
  simp only [body7, quatToMat3, qIdentity, fadd, fmul, fsub, fneg]
  norm_num

/-- C2, counterexample: the source checks `std::isfinite` on the x
component only, so a position with finite x and NaN y is NOT corrected:
the body is created at the non-finite position, not at the origin. -/
theorem setHitbox_nonfinite_y_counterexample :
    isfiniteF entBadY.position.y = false ∧
      ((SetHitbox env0 0 entBadY w0 (some 0)).2.1.lookup 0).map (fun b => b.pose.p) =
        some ⟨F.num 0, F.nan, F.num 0⟩ ∧
      (⟨F.num 0, F.nan, F.num 0⟩ : Vector3) ≠ v3zero := by decide

/-- C2, amended: for every Entity whose position has a non-finite x
component and no body yet, `SetHitbox` with non-null geometry corrects
the position to the origin before the body is created, so the body is
created at (0,0,0). -/
theorem setHitbox_nonfinite_x_position_to_origin (env : Env) (self : Nat) (ent : Entity)
    (w : World) (g : Geometry) (hx : isfiniteF ent.position.x = false)
    (hb : ent.hitbox = none) :
    (SetHitbox env self ent w (some g)).1.position = v3zero ∧
      ((SetHitbox env self ent w (some g)).2.1.lookup w.nextId).map (fun b => b.pose.p) =
        some v3zero ∧
      (SetHitbox env self ent w (some g)).1.hitbox = some w.nextId := by
  simp [SetHitbox, hb, hx, World.create, lookup_modifyBody, World.lookup, lookupBody,
    attachToBody, newRigidDynamic]

/-- Witness for the amended C2 at a concrete NaN-x entity. -/
theorem setHitbox_nonfinite_x_witness :
    isfiniteF entBadX.position.x = false ∧ entBadX.hitbox = none ∧
      ((SetHitbox env0 0 entBadX w0 (some 0)).1.position = v3zero ∧
        ((SetHitbox env0 0 entBadX w0 (some 0)).2.1.lookup w0.nextId).map
            (fun b => b.pose.p) = some v3zero ∧
        (SetHitbox env0 0 entBadX w0 (some 0)).1.hitbox = some w0.nextId) :=
  ⟨rfl, rfl, setHitbox_nonfinite_x_position_to_origin env0 0 entBadX w0 0 rfl rfl⟩

/-- C4: every Entity has at most one physical body: a successful
`SetHitbox` ends with the body reference set to the single handle in
play (the existing one, or the one fresh handle the world hands out when
there was none), later successful calls add a shape to that same body
rather than registering a second one, and PullSync never changes the
body reference. -/
theorem setHitbox_single_body_lifetime (env : Env) (self : Nat) (ent : Entity)
    (w : World) (g : Geometry) :
    (SetHitbox env self ent w (some g)).1.hitbox = some (bodyIdOf ent w) ∧
      (SetHitbox env self ent w (some g)).2.1.nextId =
        (match ent.hitbox with
          | none => w.nextId + 1
          | some _ => w.nextId) ∧
      (SetHitbox env self ent w (some g)).2.1.bodies.map Prod.fst =
        (match ent.hitbox with
          | none => w.nextId :: w.bodies.map Prod.fst
          | some _ => w.bodies.map Prod.fst) ∧
      ((SetHitbox env self ent w (some g)).2.1.lookup (bodyIdOf ent w)).map Body.shapes =
        (match ent.hitbox with
          | none => some [attachShape env ent g]
          | some id => (w.lookup id).map (fun b => b.shapes ++ [attachShape env ent g])) ∧
      (PhysicsUpdate env ent w).hitbox = ent.hitbox := by
  cases h : ent.hitbox with
  | none =>
    refine ⟨?_, ?_, ?_, ?_, ?_⟩ <;>
      simp [SetHitbox, h, bodyIdOf, World.create, World.modifyBody, keys_modifyList,
        lookup_modifyBody, World.lookup, lookupBody, attachToBody, attachShape,
        newRigidDynamic, PhysicsUpdate]
  | some id =>
    refine ⟨?_, ?_, ?_, ?_, ?_⟩
    · simp [SetHitbox, h, bodyIdOf]
    · simp [SetHitbox, h, World.modifyBody]
    · simp [SetHitbox, h, World.modifyBody, keys_modifyList]
    · simp only [SetHitbox, h, bodyIdOf, World.lookup, World.modifyBody,
        lookupBody_modifyList]
      cases hl : lookupBody w.bodies id <;>
        simp [hl, attachToBody, attachShape]
    · simp only [PhysicsUpdate, h]
      cases hl : w.lookup id <;> exact h

/-- C8, counterexample: a NaN mass is not caught by the `mass <= 0.0f`
check (IEEE comparisons with NaN are false), so after a successful
`SetHitbox` the entity's mass is still NaN — not strictly positive — and
the body's mass is set from that NaN. -/
theorem setHitbox_nan_mass_counterexample :
    isfiniteF entNanMass.mass = false ∧
      flt (F.num 0) (SetHitbox env0 0 entNanMass w0 (some 0)).1.mass = false ∧
      ((SetHitbox env0 0 entNanMass w0 (some 0)).2.1.lookup 0).map Body.mass =
        some F.nan := by decide

/-- C8, amended: for every Entity whose mass is finite, after a
successful `SetHitbox` (and with the body reachable: absent, or present
in the world) the mass is strictly positive — 1.0 if it was non-positive
before, unchanged otherwise — and the body's mass is set from exactly
this sanitized value. -/
theorem setHitbox_mass_sanitized_of_finite (env : Env) (self : Nat) (ent : Entity)
    (w : World) (g : Geometry) (hm : isfiniteF ent.mass = true)
    (hb : ent.hitbox = none ∨ ∃ id, ent.hitbox = some id ∧ (w.lookup id).isSome = true) :
    flt (F.num 0) (SetHitbox env self ent w (some g)).1.mass = true ∧
      (SetHitbox env self ent w (some g)).1.mass =
        (if fle ent.mass (F.num 0) = true then F.num 1 else ent.mass) ∧
      ((SetHitbox env self ent w (some g)).2.1.lookup (bodyIdOf ent w)).map Body.mass =
        some (SetHitbox env self ent w (some g)).1.mass := by
  have hmass2 : (SetHitbox env self ent w (some g)).1.mass =
      (if fle ent.mass (F.num 0) = true then F.num 1 else ent.mass) := by
    cases h : ent.hitbox <;> simp [SetHitbox, h]
  have hpos : flt (F.num 0)
      (if fle ent.mass (F.num 0) = true then F.num 1 else ent.mass) = true := by
    cases hq : ent.mass with
    | num q =>
      by_cases hle : (q : ℚ) ≤ 0
      · simp [fle, hle, flt]
      · have hq0 : (0 : ℚ) < q := lt_of_not_le hle
        simp [fle, flt, hle, hq0]
    | pinf => rw [hq] at hm; simp [isfiniteF] at hm
    | ninf => rw [hq] at hm; simp [isfiniteF] at hm
    | nan => rw [hq] at hm; simp [isfiniteF] at hm
  refine ⟨hmass2 ▸ hpos, hmass2, ?_⟩
  rw [hmass2]
  rcases hb with hnone | ⟨id, hsome, hl⟩
  · simp [SetHitbox, hnone, bodyIdOf, World.create, World.lookup, World.modifyBody,
      lookupBody_modifyList, lookupBody, attachToBody]
  · rw [Option.isSome_iff_exists] at hl
    obtain ⟨b, hlb⟩ := hl
    simp only [SetHitbox, hsome, bodyIdOf, World.lookup, World.modifyBody,
      lookupBody_modifyList]
    rw [show lookupBody w.bodies id = some b from hlb]
    simp [attachToBody]

/-- Witness for the amended C8 at a concrete entity with mass -2. -/
theorem setHitbox_mass_witness :
    isfiniteF entNegMass.mass = true ∧
      (flt (F.num 0) (SetHitbox env0 0 entNegMass w0 (some 0)).1.mass = true ∧
        (SetHitbox env0 0 entNegMass w0 (some 0)).1.mass =
          (if fle entNegMass.mass (F.num 0) = true then F.num 1 else entNegMass.mass) ∧
        ((SetHitbox env0 0 entNegMass w0 (some 0)).2.1.lookup
              (bodyIdOf entNegMass w0)).map Body.mass =
          some (SetHitbox env0 0 entNegMass w0 (some 0)).1.mass) :=
  ⟨rfl, setHitbox_mass_sanitized_of_finite env0 0 entNegMass w0 0 rfl (Or.inl rfl)⟩

/-- C10: a successful `SetHitbox` changes at most position (only via the
non-finite sanitization), mass (only via the non-positivity
sanitization) and the body reference (only when it was null); the
orientation quaternion, Euler rotation, scale, velocity, world matrix,
model reference and model identifier are unchanged — in particular the
entity's velocity field keeps its value even though the body it ends up
with is put fully at rest. -/
theorem setHitbox_frame_condition (env : Env) (self : Nat) (ent : Entity) (w : World)
    (g : Geometry) :
    (SetHitbox env self ent w (some g)).1.rotationQuat = ent.rotationQuat ∧
      (SetHitbox env self ent w (some g)).1.rotation = ent.rotation ∧
      (SetHitbox env self ent w (some g)).1.scale = ent.scale ∧
      (SetHitbox env self ent w (some g)).1.velocity = ent.velocity ∧
      (SetHitbox env self ent w (some g)).1.worldMatrix = ent.worldMatrix ∧
      (SetHitbox env self ent w (some g)).1.model = ent.model ∧
      (SetHitbox env self ent w (some g)).1.modelID = ent.modelID ∧
      (SetHitbox env self ent w (some g)).1.position =
        (if isfiniteF ent.position.x = true then ent.position else v3zero) ∧
      (SetHitbox env self ent w (some g)).1.mass =
        (if fle ent.mass (F.num 0) = true then F.num 1 else ent.mass) ∧
      (SetHitbox env self ent w (some g)).1.hitbox = some (bodyIdOf ent w) ∧
      ((SetHitbox env self ent w (some g)).2.1.lookup (bodyIdOf ent w)).all bodyAtRest =
        true := by
  cases h : ent.hitbox with
  | none =>
    refine ⟨?_, ?_, ?_, ?_, ?_, ?_, ?_, ?_, ?_, ?_, ?_⟩ <;>
      simp [SetHitbox, h, bodyIdOf, World.create, World.lookup, World.modifyBody,
        lookupBody_modifyList, lookupBody, attachToBody, bodyAtRest]
  | some id =>
    refine ⟨?_, ?_, ?_, ?_, ?_, ?_, ?_, ?_, ?_, ?_, ?_⟩ <;>
      simp [SetHitbox, h, bodyIdOf, World.lookup, World.modifyBody,
        lookupBody_modifyList, attachToBody, bodyAtRest]
    cases hl : lookupBody w.bodies id <;> simp [hl, attachToBody, bodyAtRest]

end RayForce
